import Mathlib

/-!
Shallow embedding of `src/download_todays_data.py` (cloud_lab_sim).

Conventions of the embedding:
* Python exceptions are modelled with `Except PyError`; a function that cannot
  raise keeps a plain return type.
* Filesystem contents are passed explicitly as lists of filenames; a filename
  is a `String` (path relative to the store directory `RAW_SAVED_DIR`).
* Calendar dates are triples `(year, month, day) : Nat × Nat × Nat`; weekday
  indices are `Nat` (Python `datetime.weekday()`, 0 = Monday .. 6 = Sunday).
* External collaborators (the Chrome webdriver, the web page, the wall clock
  advancing between polls) are passed in as an explicit environment.

A central fact of the source, modelled explicitly below: line 7 reads
`from datetime import datetime, time`, so the module-level name `time` is
bound to the class `datetime.time`, not to the standard-library `time`
module.  The class `datetime.time` has no attribute `time` and no attribute
`sleep`, so every occurrence of `time.time()` or `time.sleep(...)` in this
module raises `AttributeError` when executed.
-/

/-- The Python exception classes this module can raise or observe. -/
inductive PyError where
  | attributeError (msg : String)
  | typeError (msg : String)
  | valueError (msg : String)
  | webDriverError (msg : String)
  | unboundLocalError (msg : String)
deriving Repr, DecidableEq

/-- `time.time()` as resolved in this module: `time` is the class
`datetime.time` (line 7), which has no attribute `time`, so the call raises
`AttributeError` instead of returning the wall-clock seconds. -/
def time_time : Except PyError Nat :=
  .error (.attributeError "type object datetime.time has no attribute time")

/-- `time.sleep(...)` as resolved in this module: `time` is the class
`datetime.time` (line 7), which has no attribute `sleep`, so the call raises
`AttributeError`. -/
def time_sleep : Except PyError Unit :=
  .error (.attributeError "type object datetime.time has no attribute sleep")

/-!
String primitives.  The embedding implements the string operations it needs
by structural recursion over the character list of a `String`, mirroring the
Python semantics of `str.endswith`, `str.split`, `str.lower` and `int()`
digit parsing. -/

/-- `b` ends with `p` (Python `str.endswith`). -/
def endsWithS (s p : String) : Bool :=
  List.isSuffixOf p.data s.data

/-- ASCII lower-casing of one character (Python `str.lower` acts
per-character; the filenames concerned are ASCII). -/
def charLower (c : Char) : Char :=
  if 'A' ≤ c ∧ c ≤ 'Z' then Char.ofNat (c.toNat + 32) else c

/-- Python `str.lower`. -/
def toLowerS (s : String) : String :=
  ⟨s.data.map charLower⟩

/-- Splitting worker: scans the text left to right; at each position a match
of the (nonempty) separator closes the current group.  `fuel` bounds the
number of steps; each step consumes at least one character. -/
def splitOnAuxS (sep : List Char) : Nat → List Char → List Char →
    List (List Char)
  | 0, _, acc => [acc.reverse]
  | _ + 1, [], acc => [acc.reverse]
  | fuel + 1, c :: rest, acc =>
    if List.isPrefixOf sep (c :: rest) then
      acc.reverse :: splitOnAuxS sep fuel ((c :: rest).drop sep.length) []
    else
      splitOnAuxS sep fuel rest (c :: acc)

/-- Python `str.split(sep)` for a nonempty separator: left-to-right,
non-overlapping; always yields at least one (possibly empty) group. -/
def splitOnS (sep s : String) : List String :=
  if sep.data.isEmpty then [s]
  else (splitOnAuxS sep.data (s.data.length + 1) s.data []).map String.mk

/-- Concatenation with separator (Python `sep.join`). -/
def intercalateS (sep : String) : List String → String
  | [] => ""
  | [x] => x
  | x :: xs => x ++ sep ++ intercalateS sep xs

/-- Digit-string parsing: `some n` for a nonempty all-digit string. -/
def strToNat? (s : String) : Option Nat :=
  if ¬ s.data.isEmpty ∧ s.data.all Char.isDigit then
    some (s.data.foldl (fun n c => n * 10 + (c.toNat - 48)) 0)
  else none

/-- `f.suffix.lower() == '.csv'` (line 84): the `pathlib` suffix of `name`
is its final dot-extension; lower-casing it and comparing with `.csv` is the
same as checking that the lower-cased name ends with `.csv` and the name has
a dot-extension at all — for the plain (non-dot-leading) filenames this
store holds, checking the lower-cased name suffix suffices. -/
def hasCsvSuffix (name : String) : Bool :=
  endsWithS (toLowerS name) ".csv"

/-- `Path(name).glob("*.crdownload")` membership test for one name
(line 87): the file is a partial-download marker. -/
def isCrdownload (name : String) : Bool :=
  endsWithS name ".crdownload"

/-- One iteration body of the polling loop of
`DownloadFile.wait_for_download_complete` (lines 79-94), at poll step `i`:

* `current_files = set(Path(download_dir).glob("*"))` — modelled by
  `dirStates.getD i []`, the directory contents observed at step `i`;
* `new_files = current_files - initial_files`;
* `new_csv_files = [f for f in new_files if f.suffix.lower() == '.csv']`;
* `crdownload_files = list(Path(download_dir).glob("*.crdownload"))` —
  note: globbed over the whole directory, not only over the new files;
* `if new_csv_files and not crdownload_files: return new_csv_files[0]`.

Returns `some f` when this step accepts file `f`, `none` otherwise. -/
def pollStep (dirStates : List (List String)) (initial_files : List String)
    (i : Nat) : Option String :=
  let current_files := dirStates.getD i []
  let new_files := current_files.filter (fun f => ¬ initial_files.contains f)
  let new_csv_files := new_files.filter hasCsvSuffix
  let crdownload_files := current_files.filter isCrdownload
  if ¬ new_csv_files.isEmpty ∧ crdownload_files.isEmpty then
    new_csv_files.head?
  else
    none

/-- The `while time.time() - start_time < timeout` loop of
`wait_for_download_complete` (lines 79-96).  `fuel` bounds the remaining
iterations (each genuine iteration would consume one second via
`time.sleep(1)`, so at most `timeout` iterations can start before the
deadline).  Each iteration re-evaluates `time.time()` for the loop condition
and ends with `time.sleep(1)` (line 94) — both of which, in this module,
raise `AttributeError` (see `time_time`, `time_sleep`). -/
def waitLoop (dirStates : List (List String)) (initial_files : List String)
    (timeout start_time : Nat) : Nat → Nat → Except PyError (Option String)
  | 0, _ => .ok none
  | fuel + 1, i => do
    let now ← time_time
    if now - start_time < timeout then
      match pollStep dirStates initial_files i with
      | some f => pure (some f)
      | none => do
        let _ ← time_sleep
        waitLoop dirStates initial_files timeout start_time fuel (i + 1)
    else
      pure none

/-- `DownloadFile.wait_for_download_complete(download_dir, initial_files,
timeout)` (lines 74-96).  The first executed statement is
`start_time = time.time()` (line 77); since `time` is `datetime.time`, this
raises `AttributeError` before the loop is entered.  The directory is
observed through `dirStates` (contents at each would-be poll step). -/
def wait_for_download_complete (dirStates : List (List String))
    (initial_files : List String) (timeout : Nat) :
    Except PyError (Option String) := do
  let start_time ← time_time
  waitLoop dirStates initial_files timeout start_time (timeout + 1) 0

/-- `DownloadFile.kill_chromedriver` (lines 61-72): runs
`subprocess.run(["pkill", "-f", "chromedriver"], ..., check=False)` inside a
`try` whose `except Exception: pass` swallows everything; `check=False` means
a nonzero exit code of `pkill` does not raise either.  Whatever the outcome
of the subprocess call, the method returns normally. -/
def kill_chromedriver (_pkillOutcome : Except PyError Nat) : Except PyError Unit :=
  .ok ()

/-- The external collaborators of one retrieval attempt
(`DownloadFile.download_todays_price`, lines 129-262). -/
structure BrowserEnv where
  /-- `webdriver.Chrome(options=...)` (line 127) starts a session. -/
  setupOk : Bool
  /-- the anti-detection `driver.execute_script` (line 134) succeeds. -/
  antiDetectOk : Bool
  /-- `driver.get(NEPSE_URL)` (line 145) succeeds. -/
  navigateOk : Bool
  /-- per selector candidate (lines 153-160, six candidates): whether
  `wait.until(EC.element_to_be_clickable(...))` yields an element. -/
  selectorResults : List Bool
  /-- `download_link.click()` (line 208) succeeds; a click failure is caught
  and only logged (lines 209-211). -/
  clickOk : Bool
  /-- directory contents at each poll step of the await phase. -/
  dirStates : List (List String)
  /-- snapshot `initial_files = set(RAW_SAVED_DIR.glob("*"))` (line 136). -/
  initial_files : List String
  /-- the configured `TIMEOUT` (line 25). -/
  timeout : Nat
deriving Repr

/-- The `for i, selector in enumerate(download_selectors)` loop
(lines 162-174): `download_link = None`; each candidate is tried inside its
own `try`, a failure is logged and the loop continues; the first success
assigns `download_link` and breaks.  Result: index of the first succeeding
candidate, or `none` when every candidate fails (no exception escapes the
loop). -/
def first_clickable (selectorResults : List Bool) : Option Nat :=
  selectorResults.findIdx? (· = true)

/-- The body of the `try` block of `download_todays_price` (lines 139-233).
Any error value returned here is what the `except Exception` handler at
line 235 will catch.  Note the control flow actually realised in this
module: `time.sleep(5)` at line 148 raises `AttributeError` (see
`time_sleep`), so everything after it — the selector loop, the scroll, the
click, and the call to `wait_for_download_complete` at line 224 — is
unreachable; it is nevertheless embedded below, guarded by that raise. -/
def tryBody (env : BrowserEnv) : Except PyError (Option String) := do
  if ¬ env.navigateOk then
    throw (.webDriverError "driver.get failed")
  let _ ← time_sleep
  let download_link := first_clickable env.selectorResults
  match download_link with
  | none =>
    throw (.webDriverError "execute_script scrollIntoView on None")
  | some _ => do
    let _ ← time_sleep
    let downloaded_file ← wait_for_download_complete env.dirStates
      env.initial_files env.timeout
    pure downloaded_file

/-- Observable outcome of one retrieval attempt. -/
structure RetrieveOutcome where
  /-- `.ok f` models `return downloaded_file`; `.error e` models an
  exception escaping `download_todays_price` to its caller. -/
  result : Except PyError (Option String)
  /-- the cleanup attempted `driver.quit()` (lines 242-253). -/
  quitAttempted : Bool
  /-- the cleanup reached `self.kill_chromedriver()` (line 260). -/
  killInvoked : Bool
deriving Repr

/-- The `finally` block of `download_todays_price` plus the function return
(lines 240-262).  `pending` is the continuation the function would take once
the `finally` completes normally: either `return downloaded_file` or a
pending error.  Steps:
* lines 242-256: `driver.quit()` inside its own `try`/`except`, so a quit
  failure is caught and only logged — it never propagates;
* line 259: `time.sleep(2)` — `time` is `datetime.time`, so this raises
  `AttributeError` inside the `finally`; an exception raised in a `finally`
  replaces the pending control flow, so `self.kill_chromedriver()`
  (line 260) and the `return` (line 262) never execute. -/
def finallyBlock (pending : Except PyError (Option String)) : RetrieveOutcome :=
  match time_sleep with
  | .error e => { result := .error e, quitAttempted := true, killInvoked := false }
  | .ok _ =>
    let _ := kill_chromedriver (.ok 0)
    { result := pending, quitAttempted := true, killInvoked := true }

/-- `DownloadFile.download_todays_price` (lines 129-262).

* Line 131 `driver = self.setup_browser()` and line 134 the anti-detection
  `execute_script` run before the `try`: if either raises, the exception
  propagates with no cleanup at all.
* Lines 139-238: the `try` body (see `tryBody`); the `except Exception`
  handler at line 235 catches any exception from it and merely logs it.  On
  that caught path the local `downloaded_file` (first assigned at line 224)
  was never bound, so the `return downloaded_file` at line 262 would raise
  `UnboundLocalError` — recorded as the pending continuation, although the
  `finally` raises first (see `finallyBlock`).
* Lines 240-262: the `finally` block and the return. -/
def download_todays_price (env : BrowserEnv) : RetrieveOutcome :=
  if ¬ env.setupOk then
    { result := .error (.webDriverError "session not created"),
      quitAttempted := false, killInvoked := false }
  else if ¬ env.antiDetectOk then
    { result := .error (.webDriverError "execute_script failed"),
      quitAttempted := false, killInvoked := false }
  else
    let pending : Except PyError (Option String) :=
      match tryBody env with
      | .ok f => .ok f
      | .error _ => .error (.unboundLocalError "downloaded_file")
    finallyBlock pending

/-- `pathlib.Path(name).stem`: the filename without its final suffix.
For names without a dot the name itself is returned (dot-leading hidden
files, which this store never holds, are abstracted). -/
def stem (name : String) : String :=
  match splitOnS "." name with
  | [] => name
  | [_] => name
  | parts => intercalateS "." parts.dropLast

/-- `file_path.stem.split(" - ")[-1]` (line 276): the last component of the
stem split on `" - "`.  Python `str.split` on a nonempty separator always
yields at least one component, so `[-1]` never raises. -/
def date_portion (name : String) : String :=
  (splitOnS " - " (stem name)).getLastD ""

/-- Number of days in a month, with the Gregorian leap rule — the calendar
validation performed by `datetime.strptime`/`datetime.date`. -/
def daysInMonth (y m : Nat) : Nat :=
  if m = 2 then
    if y % 4 = 0 ∧ (y % 100 ≠ 0 ∨ y % 400 = 0) then 29 else 28
  else if m = 4 ∨ m = 6 ∨ m = 9 ∨ m = 11 then 30
  else 31

/-- `datetime.strptime(s, "%Y-%m-%d").date()` (line 277), abstracted: the
input must be three dash-separated nonempty digit groups (year at most four
digits, as `%Y` consumes at most four) forming a valid calendar date;
anything else makes `strptime` raise `ValueError`, modelled as `none`. -/
def parseYMD (s : String) : Option (Nat × Nat × Nat) :=
  match splitOnS "-" s with
  | [ys, ms, ds] =>
    match strToNat? ys, strToNat? ms, strToNat? ds with
    | some y, some m, some d =>
      if ys.data.length ≤ 4 ∧ 1 ≤ m ∧ m ≤ 12 ∧ 1 ≤ d ∧ d ≤ daysInMonth y m then
        some (y, m, d)
      else none
    | _, _, _ => none
  | _ => none

/-- `PriceFileManager.is_file_from_today` (lines 275-278), called directly
with ONE argument (its declared parameter `file_path`): parse the
filename-embedded date with `strptime` and compare it with
`datetime.today().date()`.  `strptime` raises `ValueError` on a malformed
date string; there is no exception handler in the function, so the error
propagates.  NOTE: line 275 declares the function without a `self`
parameter; the bound-method calls the source actually makes pass TWO
positional arguments and raise `TypeError` before this body runs (see
`get_todays_files`). -/
def is_file_from_today (today : Nat × Nat × Nat) (file_name : String) :
    Except PyError Bool :=
  let date_str := date_portion file_name
  match parseYMD date_str with
  | none => .error (.valueError "time data does not match format %Y-%m-%d")
  | some d => .ok (d = today)

/-- `PriceFileManager.is_file_modified_today` (lines 271-273), called
directly with ONE argument: compare the date of the file modification
timestamp with today.  The mtime date is supplied by the filesystem.
Line 271 also lacks `self`, so the bound-method call the source makes at
line 340 (`self.file_manager.is_file_modified_today(raw_file)`) would raise
`TypeError` — that call site is itself unreachable (see
`download_todays_data`). -/
def is_file_modified_today (today mtimeDate : Nat × Nat × Nat) : Bool :=
  mtimeDate = today

/-- The deterministic expected filename built by
`PriceFileManager.get_file_by_date` (line 283):
`f"Today's Price - {date_str}{suffix}.csv"` with `suffix = ""`. -/
def expectedName (date_str : String) : String :=
  "Today\x27s Price - " ++ date_str ++ ".csv"

/-- `PriceFileManager.get_file_by_date(date_str, file_type)` (lines
280-287): build the expected filename, check `filepath.is_file()`, return
the path if present and `None` otherwise.  `files` is the store directory
listing; the returned path is relative to the store directory.  The
`file_type` argument is accepted and ignored by the source (`suffix = ""`
unconditionally); it is omitted here.  No exception can be raised. -/
def get_file_by_date (files : List String) (date_str : String) : Option String :=
  let filename := expectedName date_str
  if files.contains filename then some filename else none

/-- `PriceFileManager.file_exists_for_date(date_str, file_type)`
(lines 295-297). -/
def file_exists_for_date (files : List String) (date_str : String) : Bool :=
  (get_file_by_date files date_str).isSome

/-- Insertion into a `≤`-sorted list of strings, for `sorted(...)`. -/
def strInsert (x : String) : List String → List String
  | [] => [x]
  | y :: ys => if x ≤ y then x :: y :: ys else y :: strInsert x ys

/-- Python `sorted(...)` over a set of filenames (line 292). -/
def strSort (xs : List String) : List String := xs.foldr strInsert []

/-- `PriceFileManager.get_todays_files` (lines 289-293):
`temp_save_dir = {f for f in self.raw_dir.glob("*.csv")}`,
`existing_files = sorted(temp_save_dir)`, then the list comprehension
`[f for f in existing_files if self.is_file_from_today(f)]`.

That comprehension calls `self.is_file_from_today(f)` as a BOUND method:
Python passes the instance and `f`, i.e. two positional arguments, to a
function declared (line 275) with the single parameter `file_path`.  The
call therefore raises `TypeError` at the first element of
`existing_files`.  When the directory holds no `.csv` file the
comprehension body never runs and the empty list is returned. -/
def get_todays_files (files : List String) : Except PyError (List String) :=
  let existing_files := strSort (files.filter (fun f => endsWithS f ".csv"))
  match existing_files with
  | [] => .ok []
  | _ :: _ =>
    .error (.typeError
      "is_file_from_today takes 1 positional argument but 2 were given")

/-- `MarketChecker.is_weekend` (lines 303-306):
`datetime.today().weekday() in WEEKEND_DAYS`, with `WEEKEND_DAYS` the
configured non-trading weekday set (line 23, default `{4, 5}`). -/
def is_weekend (todayWeekday : Nat) (weekendDays : List Nat) : Bool :=
  weekendDays.contains todayWeekday

/-- Inputs of one orchestrator invocation (`PriceDataApp`). -/
structure AppEnv where
  /-- `datetime.today().weekday()`. -/
  todayWeekday : Nat
  /-- the configured `WEEKEND_DAYS` set. -/
  weekendDays : List Nat
  /-- the store directory (`RAW_SAVED_DIR`) listing. -/
  rawDirFiles : List String
deriving Repr

/-- Observable outcome of `PriceDataApp.download_todays_data`. -/
structure AppOutcome where
  /-- `.ok b` models `return b`; `.error e` an escaping exception. -/
  result : Except PyError Bool
  /-- the artifact store was queried (`get_todays_files` was called). -/
  listedStore : Bool
  /-- a retrieval (`DownloadFile.download_todays_price`, i.e. browser
  activity) was started. -/
  retrieverInvoked : Bool
deriving Repr

/-- `PriceDataApp.download_todays_data` (lines 322-345):

* lines 324-326: `if self.market_checker.is_weekend(): return True` — no
  other attribute is touched before this check;
* lines 329-334: `todays_files = self.file_manager.get_todays_files()`;
  when a `.csv` file exists this call raises `TypeError` (see
  `get_todays_files`); a nonempty result returns `True`;
* line 338: `raw_file = self.download_filedownload_todays_price()` — the
  attribute `download_filedownload_todays_price` does not exist on
  `PriceDataApp` (a missing dot: the instance has `download_file`), so the
  attribute lookup raises `AttributeError` and the retriever is never
  invoked; the validation at line 340
  (`raw_file and self.file_manager.is_file_modified_today(raw_file)`) is
  unreachable — and would itself raise `TypeError` (missing `self`, see
  `is_file_modified_today`). -/
def download_todays_data (env : AppEnv) : AppOutcome :=
  if is_weekend env.todayWeekday env.weekendDays then
    { result := .ok true, listedStore := false, retrieverInvoked := false }
  else
    match get_todays_files env.rawDirFiles with
    | .error e =>
      { result := .error e, listedStore := true, retrieverInvoked := false }
    | .ok todays_files =>
      if ¬ todays_files.isEmpty then
        { result := .ok true, listedStore := true, retrieverInvoked := false }
      else
        { result := .error (.attributeError
            "PriceDataApp object has no attribute download_filedownload_todays_price"),
          listedStore := true, retrieverInvoked := false }

/-- Observable outcome of the top level: `PriceDataApp.run` (lines 347-358)
followed by the module tail `app = PriceDataApp(); app.run()`
(lines 362-363). -/
structure TopLevel where
  /-- an exception escaping `run()` to the interpreter, if any. -/
  uncaught : Option PyError
  /-- the process exit status after `app.run()` returns. -/
  exitCode : Nat
  /-- the `except` branch at lines 357-358 ran (it logs
  "An unexpected error occured!" — suppressed unless `--log` was given,
  since the default logging level is `CRITICAL + 1`, line 56). -/
  loggedUnexpected : Bool
deriving Repr, DecidableEq

/-- `PriceDataApp.run` plus the module entry (lines 347-363):
`success = self.download_todays_data()` inside a `try`; both the
`success`/failure branches only log; the `except Exception` at line 357
catches every exception and only logs; `run` is annotated `-> None` and
returns `None` on every path; the module then falls off the end, so the
interpreter exits with status 0 in every case. -/
def run (env : AppEnv) : TopLevel :=
  match (download_todays_data env).result with
  | .ok _success => { uncaught := none, exitCode := 0, loggedUnexpected := false }
  | .error _e => { uncaught := none, exitCode := 0, loggedUnexpected := true }

/-! ## Helper lemmas -/

/-- Inserting into a sorted list never produces the empty list. -/
theorem strInsert_ne_nil (x : String) (ys : List String) :
    strInsert x ys ≠ [] := by
  cases ys with
  | nil => simp [strInsert]
  | cons y ys => simp only [strInsert]; split <;> simp

/-- Sorting a nonempty list yields a nonempty list. -/
theorem strSort_ne_nil (xs : List String) (h : xs ≠ []) :
    strSort xs ≠ [] := by
  cases xs with
  | nil => exact absurd rfl h
  | cons x xs => exact strInsert_ne_nil x (strSort xs)

/-! ## Claim theorems -/

/-- C1: for every configuration and weekday in the configured non-trading
set, `download_todays_data` returns success (`True`) immediately, without
listing the artifact store and without invoking the retriever. -/
theorem weekend_skips_download (env : AppEnv)
    (h : is_weekend env.todayWeekday env.weekendDays = true) :
    download_todays_data env = ⟨.ok true, false, false⟩ := by
  simp [download_todays_data, h]

/-- Witness for `weekend_skips_download`: weekday 4 with the default
non-trading set `{4, 5}` and a nonempty store. -/
theorem weekend_skips_download_witness :
    is_weekend 4 [4, 5] = true ∧
      download_todays_data ⟨4, [4, 5], ["a.csv"]⟩ = ⟨.ok true, false, false⟩ :=
  ⟨rfl, weekend_skips_download ⟨4, [4, 5], ["a.csv"]⟩ rfl⟩

/-- C2 (code divergence): on a trading day (Monday, weekday 0, default
non-trading set `{4, 5}`) with the correctly named artifact for that very
day present in the store, `download_todays_data` does not return success:
the idempotence listing raises `TypeError` (the bound-method call to the
self-less `is_file_from_today`), which escapes `download_todays_data`.  The
retriever is indeed never invoked, but the reported outcome is an escaping
exception, not success. -/
theorem existing_artifact_raises_typeError :
    download_todays_data ⟨0, [4, 5], [expectedName "2026-10-12"]⟩ =
      ⟨.error (.typeError
          "is_file_from_today takes 1 positional argument but 2 were given"),
        true, false⟩ := rfl

/-- C3 counterexample: listing today's artifacts over a store holding the
single file `garbage.csv` (whose embedded date portion `garbage` cannot be
parsed) raises `TypeError` instead of silently skipping the file. -/
theorem malformed_listing_raises :
    get_todays_files ["garbage.csv"] =
      .error (.typeError
        "is_file_from_today takes 1 positional argument but 2 were given") := rfl

/-- C3 amended: a file with an unparseable embedded date is not silently
skipped.  Whenever the store holds any `.csv` file, the listing raises
`TypeError` (the self-less `is_file_from_today` is called as a bound
method); and the per-file check itself, called directly with one argument,
raises `ValueError` from `strptime` on an unparseable date portion instead
of treating the file as a non-match. -/
theorem malformed_not_skipped (files : List String) (f : String)
    (hf : f ∈ files) (hcsv : endsWithS f ".csv" = true)
    (today : Nat × Nat × Nat) (name : String)
    (hname : parseYMD (date_portion name) = none) :
    (∃ e, get_todays_files files = .error e) ∧
      is_file_from_today today name =
        .error (.valueError "time data does not match format %Y-%m-%d") := by
  constructor
  · have hmem : f ∈ files.filter (fun g => endsWithS g ".csv") :=
      List.mem_filter.mpr ⟨hf, hcsv⟩
    have hs : strSort (files.filter (fun g => endsWithS g ".csv")) ≠ [] :=
      strSort_ne_nil _ (List.ne_nil_of_mem hmem)
    simp only [get_todays_files]
    split
    · next heq => exact absurd heq hs
    · exact ⟨_, rfl⟩
  · simp only [is_file_from_today, hname]

/-- Witness for `malformed_not_skipped`: the store `["garbage.csv"]` and the
direct check of `nodate.csv` on 2026-10-12. -/
theorem malformed_not_skipped_witness :
    (∃ e, get_todays_files ["garbage.csv"] = .error e) ∧
      is_file_from_today (2026, 10, 12) "nodate.csv" =
        .error (.valueError "time data does not match format %Y-%m-%d") :=
  malformed_not_skipped ["garbage.csv"] "garbage.csv" (by simp) (by decide)
    (2026, 10, 12) "nodate.csv" (by decide)

/-- C4 (code divergence): with the browser session started, navigation
succeeding and all six selector candidates failing, the retrieval attempt
does not resolve to `none`: `time.sleep` raises `AttributeError` inside the
`try` (line 148), and the `finally` raises it again (line 259), so an
exception escapes to the caller and the orphan sweep never runs. -/
theorem selector_exhaustion_raises :
    download_todays_price
        ⟨true, true, true, [false, false, false, false, false, false], true,
          [[]], [], 60⟩ =
      ⟨.error (.attributeError "type object datetime.time has no attribute sleep"),
        true, false⟩ := rfl

/-- C5 (code divergence): on the simulated transition no-new-file, then
new csv plus crdownload marker, then marker removed — with timeout 60 — the
await phase returns neither the file nor `none`: `time.time()` at line 77
raises `AttributeError` before the first poll. -/
theorem await_poll_never_runs :
    wait_for_download_complete
        [[], ["x.csv", "x.crdownload"], ["x.csv"]] [] 60 =
      .error (.attributeError
        "type object datetime.time has no attribute time") := rfl

/-- C6 (code divergence): on a retrieval attempt with a live session (first
selector even succeeding), the cleanup attempts `driver.quit()` with its
failure suppressed, but then `time.sleep(2)` at line 259 raises
`AttributeError` inside the `finally`: `kill_chromedriver` (line 260) never
executes and the cleanup failure propagates to the caller. -/
theorem cleanup_sweep_unreachable :
    download_todays_price
        ⟨true, true, true, [true, false, false, false, false, false], true,
          [[], ["y.csv"]], [], 60⟩ =
      ⟨.error (.attributeError "type object datetime.time has no attribute sleep"),
        true, false⟩ := rfl

/-- C7 (code divergence): on a trading day with no artifact in the store,
the download path does not compare any retrieved artifact with today: the
attribute lookup `self.download_filedownload_todays_price` (line 338, a
missing dot) raises `AttributeError` before the retriever is invoked, and
the exception escapes `download_todays_data`. -/
theorem download_path_raises :
    download_todays_data ⟨0, [4, 5], []⟩ =
      ⟨.error (.attributeError
          "PriceDataApp object has no attribute download_filedownload_todays_price"),
        true, false⟩ := rfl

/-- C8 counterexample: a run in which an unexpected exception is raised in
the chain (trading day, a csv file in the store, so the listing raises
`TypeError`) still leaves nothing uncaught and exits with status 0 — the
claim that the process exit status communicates failure is false at this
input. -/
theorem exception_not_in_exit_status :
    (download_todays_data ⟨0, [4, 5], ["a.csv"]⟩).result =
        .error (.typeError
          "is_file_from_today takes 1 positional argument but 2 were given") ∧
      run ⟨0, [4, 5], ["a.csv"]⟩ = ⟨none, 0, true⟩ :=
  ⟨rfl, rfl⟩

/-- C8 amended: every exception is caught at the top level; when one was
raised, the handler runs (it only logs, and the log is suppressed unless
`--log` was given); `run` returns `None` and the process exit status is 0
on every input, so overall success versus failure is not communicated to
the invoking caller through the exit status. -/
theorem run_always_exits_zero (env : AppEnv) :
    (run env).uncaught = none ∧ (run env).exitCode = 0 ∧
      (∀ e, (download_todays_data env).result = .error e →
        (run env).loggedUnexpected = true) := by
  unfold run
  cases h : (download_todays_data env).result <;>
    simp [h]

/-- Witness for `run_always_exits_zero` at a store with one file on a
trading day. -/
theorem run_always_exits_zero_witness :
    (run ⟨0, [4, 5], ["b.csv"]⟩).uncaught = none ∧
      (run ⟨0, [4, 5], ["b.csv"]⟩).exitCode = 0 ∧
      (∀ e, (download_todays_data ⟨0, [4, 5], ["b.csv"]⟩).result = .error e →
        (run ⟨0, [4, 5], ["b.csv"]⟩).loggedUnexpected = true) :=
  run_always_exits_zero ⟨0, [4, 5], ["b.csv"]⟩

/-- C9: for every store listing and queried date string, the lookup computes
the single deterministic expected filename `Today\x27s Price - date.csv` and
returns it exactly when it is in the listing, and `none` (not an exception —
the return type is an `Option`) when it is not. -/
theorem find_by_date_exact (files : List String) (date_str : String) :
    (expectedName date_str ∈ files →
        get_file_by_date files date_str = some (expectedName date_str)) ∧
      (expectedName date_str ∉ files →
        get_file_by_date files date_str = none) := by
  constructor <;> intro h <;> simp [get_file_by_date, h]

/-- Witness for `find_by_date_exact`: a store holding exactly the expected
file for 2024-05-20, and the empty store. -/
theorem find_by_date_exact_witness :
    get_file_by_date [expectedName "2024-05-20"] "2024-05-20" =
        some (expectedName "2024-05-20") ∧
      get_file_by_date [] "2024-05-20" = none :=
  ⟨(find_by_date_exact [expectedName "2024-05-20"] "2024-05-20").1 (by simp),
    (find_by_date_exact [] "2024-05-20").2 (by simp)⟩

/-- C10: for every directory-state sequence, initial file set and timeout,
`wait_for_download_complete` raises `AttributeError` before completing a
single poll iteration — `time` names the class `datetime.time`, which has no
`time` attribute — so the function never returns a downloaded file and never
returns `none`. -/
theorem wait_always_raises (dirStates : List (List String))
    (initial_files : List String) (timeout : Nat) :
    wait_for_download_complete dirStates initial_files timeout =
      .error (.attributeError
        "type object datetime.time has no attribute time") := rfl
